import Mathlib

/-!
Shallow embedding of the SimpleMicroservices FastAPI application
(`main.py` plus the pydantic models in `models/`), covering the four
resource stores (Address, Person, Organization, Course), their create /
get / list / update operations, and the Course composite-key uniqueness
checker.

Modelling conventions:
* `UUID` values are modelled as `Nat`; `uuid4()` generation is modelled by
  passing the freshly generated value as an explicit `freshId` argument.
* `datetime` timestamps are modelled as `Nat`, with `datetime.utcnow()`
  passed as an explicit `now` argument.
* `Decimal` credits carry `decimal_places=1`, so they are modelled as the
  integer number of tenths of a credit (`3.0` credits = `30`).
* Each Python dict store (`addresses`, `persons`, `organizations`,
  `courses`) is an insertion-ordered association list `List (Nat × R)`;
  `d[k] = v` replaces in place when `k` is present and appends otherwise,
  exactly like a Python dict.
* Every endpoint returns `(Except Err R) × Store`: a raised HTTPException
  is an `Err` value paired with the store at the moment of the raise.
-/

/-- Error taxonomy of the service: pydantic validation failure,
`404 Not Found`, and the duplicate-id / duplicate-composite-key `400`. -/
inductive Err where
  | validation
  | notFound
  | conflict
deriving Repr, DecidableEq

deriving instance DecidableEq for Except

/-- Whether an endpoint outcome is an error. -/
def isErr {α : Type} : Except Err α → Bool
  | .error _ => true
  | .ok _ => false

/-- Python dict lookup `d.get(k)` on an association list. -/
def dictGet {α : Type} (st : List (Nat × α)) (k : Nat) : Option α :=
  (st.find? (fun p => p.1 == k)).map (fun p => p.2)

/-- Python dict membership `k in d`. -/
def dictMem {α : Type} (st : List (Nat × α)) (k : Nat) : Bool :=
  st.any (fun p => p.1 == k)

/-- Python dict assignment `d[k] = v`: replace in place when the key is
present (preserving its position), append otherwise. -/
def dictInsert {α : Type} (st : List (Nat × α)) (k : Nat) (v : α) :
    List (Nat × α) :=
  if dictMem st k then st.map (fun p => if p.1 == k then (k, v) else p)
  else st ++ [(k, v)]

/-- Python `list(d.values())`: the stored records in insertion order. -/
def dictValues {α : Type} (st : List (Nat × α)) : List α :=
  st.map (fun p => p.2)

/-- Python substring test `needle in hay` on character lists. -/
def strIn : List Char → List Char → Bool
  | _, [] => false
  | needle, c :: rest =>
      headMatches needle (c :: rest) || strIn needle rest
where
  /-- Whether the first list is an initial segment of the second. -/
  headMatches : List Char → List Char → Bool
    | [], _ => true
    | _ :: _, [] => false
    | a :: as, b :: bs => a == b && headMatches as bs

/-- Python `needle in hay` including the empty-needle case (`"" in s` is
`True` in Python). -/
def substrOf (needle hay : String) : Bool :=
  needle.isEmpty || strIn needle.toList hay.toList

/-- Python `x.lower()`: ASCII lower-casing of a string. -/
def pyLower (s : String) : String :=
  s.map Char.toLower

/-- One Python filter statement
`if q is not None: results = [x for x in results if f x q]`. -/
def optFilter {α β : Type} (l : List α) (q : Option β)
    (f : α → β → Bool) : List α :=
  match q with
  | none => l
  | some b => l.filter (fun a => f a b)

/-- The predicate one optional filter parameter imposes: trivially true
when the parameter is absent. -/
def optMatch {β : Type} (q : Option β) (f : β → Bool) : Bool :=
  match q with
  | none => true
  | some b => f b

-- ---------------------------------------------------------------------------
-- Address (models/address.py is absent from src; shapes are forced by
-- main.py and the spec)
-- ---------------------------------------------------------------------------

/-- Embedded address sub-record (`AddressBase`). Modelled from the spec:
`models/address.py` is not in src; per spec §3 an Address has street, city,
state, postal_code, country (all required strings) plus an id, and the
embedded-address examples in `models/organization.py` (in src) show the id
field present on embedded addresses. -/
structure AddressBase where
  id : Nat
  street : String
  city : String
  state : String
  postal_code : String
  country : String
deriving Repr, DecidableEq

/-- Creation payload for an Address. Modelled from the spec plus main.py:
`create_address` (main.py line 68) reads `address.id` off the payload, so
the Create shape carries an id field; `id = none` models a client that
omitted the field, in which case pydantic's `default_factory=uuid4` fills
in a fresh value (the `freshId` argument below). -/
structure AddressCreate where
  id : Option Nat
  street : String
  city : String
  state : String
  postal_code : String
  country : String
deriving Repr, DecidableEq

/-- Server-side Address record (`AddressRead`). -/
structure AddressRead where
  id : Nat
  street : String
  city : String
  state : String
  postal_code : String
  country : String
deriving Repr, DecidableEq

/-- Partial-update payload for an Address. Modelled from the spec:
`models/address.py` is not in src; per spec §3 the Update shape has all
resource fields optional, and per the spec's invariants the id is not an
updatable field. `none` = field absent from the payload. -/
structure AddressUpdate where
  street : Option String := none
  city : Option String := none
  state : Option String := none
  postal_code : Option String := none
  country : Option String := none
deriving Repr, DecidableEq

/-- The Address store. -/
abbrev AddrStore := List (Nat × AddressRead)

/-- `POST /addresses` (main.py `create_address`): the stored id is
`address.id` from the payload (pydantic fills `freshId` only when the
client omitted the field); a duplicate id is rejected with HTTP 400. -/
def create_address (st : AddrStore) (freshId : Nat) (a : AddressCreate) :
    (Except Err AddressRead) × AddrStore :=
  let theId := a.id.getD freshId
  if dictMem st theId then (.error .conflict, st)
  else
    let r : AddressRead :=
      { id := theId, street := a.street, city := a.city, state := a.state,
        postal_code := a.postal_code, country := a.country }
    (.ok r, dictInsert st theId r)

/-- `GET /addresses/{id}` (main.py `get_address`). -/
def get_address (st : AddrStore) (address_id : Nat) :
    (Except Err AddressRead) × AddrStore :=
  match dictGet st address_id with
  | none => (.error .notFound, st)
  | some r => (.ok r, st)

/-- Merge of an `AddressUpdate` onto a stored record: the Python
`stored.update(update.model_dump(exclude_unset=True))`. -/
def applyAddressUpdate (c : AddressRead) (u : AddressUpdate) : AddressRead :=
  { c with
    street := u.street.getD c.street,
    city := u.city.getD c.city,
    state := u.state.getD c.state,
    postal_code := u.postal_code.getD c.postal_code,
    country := u.country.getD c.country }

/-- `PATCH /addresses/{id}` (main.py `update_address`). -/
def update_address (st : AddrStore) (address_id : Nat) (u : AddressUpdate) :
    (Except Err AddressRead) × AddrStore :=
  match dictGet st address_id with
  | none => (.error .notFound, st)
  | some stored =>
    let merged := applyAddressUpdate stored u
    (.ok merged, dictInsert st address_id merged)

/-- `GET /addresses` (main.py `list_addresses`): successive filters, each
applied only when the query parameter was provided. -/
def list_addresses (st : AddrStore)
    (street city state_q postal_code country : Option String) :
    List AddressRead :=
  let results := dictValues st
  let results := optFilter results street (fun a q => a.street == q)
  let results := optFilter results city (fun a q => a.city == q)
  let results := optFilter results state_q (fun a q => a.state == q)
  let results := optFilter results postal_code
    (fun a q => a.postal_code == q)
  let results := optFilter results country (fun a q => a.country == q)
  results

-- ---------------------------------------------------------------------------
-- Person (models/person.py is absent from src; shapes modelled from spec §3)
-- ---------------------------------------------------------------------------

/-- Server-side Person record. Modelled from the spec: `models/person.py`
is not in src; per spec §3 a Person has uni, first_name, last_name, email,
phone, birth_date, an embedded ordered list of Address, plus the server
id (spec §3 lists no timestamps for Person). `birth_date` is modelled by
its ISO string form, which is also what main.py's filter compares. -/
structure PersonRead where
  id : Nat
  uni : String
  first_name : String
  last_name : String
  email : String
  phone : String
  birth_date : String
  addresses : List AddressBase
deriving Repr, DecidableEq

/-- Creation payload for a Person. Modelled from the spec: the Create shape
is the Person fields without the server-generated id. -/
structure PersonCreate where
  uni : String
  first_name : String
  last_name : String
  email : String
  phone : String
  birth_date : String
  addresses : List AddressBase
deriving Repr, DecidableEq

/-- Partial-update payload for a Person. Modelled from the spec: all fields
optional; the embedded address list is replaced wholesale when supplied;
the id is not an updatable field. -/
structure PersonUpdate where
  uni : Option String := none
  first_name : Option String := none
  last_name : Option String := none
  email : Option String := none
  phone : Option String := none
  birth_date : Option String := none
  addresses : Option (List AddressBase) := none
deriving Repr, DecidableEq

/-- The Person store. -/
abbrev PersonStore := List (Nat × PersonRead)

/-- `POST /persons` (main.py `create_person`): `PersonRead(**dump)` assigns
a fresh server-generated id (the Create shape has no id field). -/
def create_person (st : PersonStore) (freshId : Nat) (p : PersonCreate) :
    (Except Err PersonRead) × PersonStore :=
  let r : PersonRead :=
    { id := freshId, uni := p.uni, first_name := p.first_name,
      last_name := p.last_name, email := p.email, phone := p.phone,
      birth_date := p.birth_date, addresses := p.addresses }
  (.ok r, dictInsert st freshId r)

/-- `GET /persons/{id}` (main.py `get_person`). -/
def get_person (st : PersonStore) (person_id : Nat) :
    (Except Err PersonRead) × PersonStore :=
  match dictGet st person_id with
  | none => (.error .notFound, st)
  | some r => (.ok r, st)

/-- Merge of a `PersonUpdate` onto a stored record (the Python dict
`update` with `exclude_unset=True`); a supplied address list replaces the
stored one wholesale. -/
def applyPersonUpdate (c : PersonRead) (u : PersonUpdate) : PersonRead :=
  { c with
    uni := u.uni.getD c.uni,
    first_name := u.first_name.getD c.first_name,
    last_name := u.last_name.getD c.last_name,
    email := u.email.getD c.email,
    phone := u.phone.getD c.phone,
    birth_date := u.birth_date.getD c.birth_date,
    addresses := u.addresses.getD c.addresses }

/-- `PATCH /persons/{id}` (main.py `update_person`). -/
def update_person (st : PersonStore) (person_id : Nat) (u : PersonUpdate) :
    (Except Err PersonRead) × PersonStore :=
  match dictGet st person_id with
  | none => (.error .notFound, st)
  | some stored =>
    let merged := applyPersonUpdate stored u
    (.ok merged, dictInsert st person_id merged)

/-- `GET /persons` (main.py `list_persons`): field filters are exact; the
city/country filters match when at least one embedded address matches. -/
def list_persons (st : PersonStore)
    (uni first_name last_name email phone birth_date city country :
      Option String) : List PersonRead :=
  let results := dictValues st
  let results := optFilter results uni (fun p q => p.uni == q)
  let results := optFilter results first_name (fun p q => p.first_name == q)
  let results := optFilter results last_name (fun p q => p.last_name == q)
  let results := optFilter results email (fun p q => p.email == q)
  let results := optFilter results phone (fun p q => p.phone == q)
  let results := optFilter results birth_date (fun p q => p.birth_date == q)
  let results := optFilter results city
    (fun p q => p.addresses.any (fun a => a.city == q))
  let results := optFilter results country
    (fun p q => p.addresses.any (fun a => a.country == q))
  results

-- ---------------------------------------------------------------------------
-- Organization (models/organization.py, in src)
-- ---------------------------------------------------------------------------

/-- Server-side Organization record (`OrganizationRead`,
models/organization.py). `website` is the URL as a string. -/
structure OrganizationRead where
  id : Nat
  name : String
  org_type : String
  website : Option String
  description : Option String
  contact_person_id : Option Nat
  employee_count : Option Nat
  founded_year : Option Nat
  addresses : List AddressBase
  created_at : Nat
  updated_at : Nat
deriving Repr, DecidableEq

/-- Creation payload for an Organization (`OrganizationCreate`). -/
structure OrganizationCreate where
  name : String
  org_type : String
  website : Option String
  description : Option String
  contact_person_id : Option Nat
  employee_count : Option Nat
  founded_year : Option Nat
  addresses : List AddressBase
deriving Repr, DecidableEq

/-- Partial-update payload (`OrganizationUpdate`): every field optional,
outer `none` = absent from the payload; for fields that are nullable in
the Read shape the inner Option is the stored value (so `some none`
models an explicit JSON null clearing the field). -/
structure OrganizationUpdate where
  name : Option String := none
  org_type : Option String := none
  website : Option (Option String) := none
  description : Option (Option String) := none
  contact_person_id : Option (Option Nat) := none
  employee_count : Option (Option Nat) := none
  founded_year : Option (Option Nat) := none
  addresses : Option (List AddressBase) := none
deriving Repr, DecidableEq

/-- The Organization store. -/
abbrev OrgStore := List (Nat × OrganizationRead)

/-- `POST /organizations` (main.py `create_organization`):
`OrganizationRead(**dump)` fills id and both timestamps from their
default factories. -/
def create_organization (st : OrgStore) (freshId now : Nat)
    (o : OrganizationCreate) : (Except Err OrganizationRead) × OrgStore :=
  let r : OrganizationRead :=
    { id := freshId, name := o.name, org_type := o.org_type,
      website := o.website, description := o.description,
      contact_person_id := o.contact_person_id,
      employee_count := o.employee_count, founded_year := o.founded_year,
      addresses := o.addresses, created_at := now, updated_at := now }
  (.ok r, dictInsert st freshId r)

/-- `GET /organizations/{id}` (main.py `get_organization`). -/
def get_organization (st : OrgStore) (organization_id : Nat) :
    (Except Err OrganizationRead) × OrgStore :=
  match dictGet st organization_id with
  | none => (.error .notFound, st)
  | some r => (.ok r, st)

/-- Merge of an `OrganizationUpdate` onto a stored record: the dict keys of
`update.model_dump(exclude_unset=True)` overwrite; id/created_at/updated_at
are never in the dump, so they are carried over unchanged. -/
def applyOrganizationUpdate (c : OrganizationRead) (u : OrganizationUpdate) :
    OrganizationRead :=
  { c with
    name := u.name.getD c.name,
    org_type := u.org_type.getD c.org_type,
    website := u.website.getD c.website,
    description := u.description.getD c.description,
    contact_person_id := u.contact_person_id.getD c.contact_person_id,
    employee_count := u.employee_count.getD c.employee_count,
    founded_year := u.founded_year.getD c.founded_year,
    addresses := u.addresses.getD c.addresses }

/-- `PATCH /organizations/{id}` (main.py `update_organization`). -/
def update_organization (st : OrgStore) (organization_id : Nat)
    (u : OrganizationUpdate) : (Except Err OrganizationRead) × OrgStore :=
  match dictGet st organization_id with
  | none => (.error .notFound, st)
  | some stored =>
    let merged := applyOrganizationUpdate stored u
    (.ok merged, dictInsert st organization_id merged)

/-- `GET /organizations` (main.py `list_organizations`): name is a
case-insensitive substring match; the rest are exact; city/country match
against the embedded address list. -/
def list_organizations (st : OrgStore)
    (name org_type : Option String) (founded_year : Option Nat)
    (city country : Option String) (contact_person_id : Option Nat) :
    List OrganizationRead :=
  let results := dictValues st
  let results := optFilter results name
    (fun o q => substrOf (pyLower q) (pyLower o.name))
  let results := optFilter results org_type (fun o q => o.org_type == q)
  let results := optFilter results founded_year
    (fun o q => o.founded_year == some q)
  let results := optFilter results contact_person_id
    (fun o q => o.contact_person_id == some q)
  let results := optFilter results city
    (fun o q => o.addresses.any (fun a => a.city == q))
  let results := optFilter results country
    (fun o q => o.addresses.any (fun a => a.country == q))
  results

-- ---------------------------------------------------------------------------
-- Course (models/course.py and main.py, both in src)
-- ---------------------------------------------------------------------------

/-- Server-side Course record (`CourseRead`, models/course.py). `credits`
is the number of tenths of a credit (0.0–10.0 with one decimal place). -/
structure CourseRead where
  id : Nat
  course_code : String
  title : String
  description : Option String
  credits : Nat
  semester : String
  year : Nat
  department_code : String
  instructor_id : Option Nat
  max_enrollment : Option Nat
  prerequisites : List String
  location : Option String
  meeting_times : Option String
  created_at : Nat
  updated_at : Nat
  current_enrollment : Nat
deriving Repr, DecidableEq

/-- Creation payload (`CourseCreate` = `CourseBase`): no id, no timestamps
and no current_enrollment field — pydantic drops any extra keys a client
sends, so a client-supplied current_enrollment never reaches the model. -/
structure CourseCreate where
  course_code : String
  title : String
  description : Option String
  credits : Nat
  semester : String
  year : Nat
  department_code : String
  instructor_id : Option Nat
  max_enrollment : Option Nat
  prerequisites : List String
  location : Option String
  meeting_times : Option String
deriving Repr, DecidableEq

/-- Partial-update payload (`CourseUpdate`): every field optional, outer
`none` = absent from the payload; for fields nullable in the Read shape
the inner Option models an explicit null. Fields that are non-nullable in
`CourseRead` (course_code, title, credits, semester, year,
department_code, prerequisites) are modelled with their plain value when
set: pydantic would also accept an explicit JSON null for them, but the
`CourseRead(**stored)` re-validation then always rejects the merged
record, so no such payload ever produces a successful update or a store
change. -/
structure CourseUpdate where
  course_code : Option String := none
  title : Option String := none
  description : Option (Option String) := none
  credits : Option Nat := none
  semester : Option String := none
  year : Option Nat := none
  department_code : Option String := none
  instructor_id : Option (Option Nat) := none
  max_enrollment : Option (Option Nat) := none
  prerequisites : Option (List String) := none
  location : Option (Option String) := none
  meeting_times : Option (Option String) := none
deriving Repr, DecidableEq

/-- The Course store. -/
abbrev CourseStore := List (Nat × CourseRead)

/-- Whether a character is an ASCII capital letter (`[A-Z]`). -/
def isCap (c : Char) : Bool := 'A' ≤ c && c ≤ 'Z'

/-- Whether a character is an ASCII digit (`\d`). -/
def isDig (c : Char) : Bool := '0' ≤ c && c ≤ '9'

/-- The `CourseCodeType` pattern `^[A-Z]{3,5}\d{4}[A-Z]?$` (3–5 capital
letters, 4 digits, optional capital-letter suffix). -/
def matchesCourseCode (s : String) : Bool :=
  let cs := s.toList
  let letters := cs.takeWhile isCap
  let rest := cs.drop letters.length
  decide (3 ≤ letters.length) && decide (letters.length ≤ 5) &&
  (rest.take 4).length == 4 && (rest.take 4).all isDig &&
  (match rest.drop 4 with
   | [] => true
   | [c] => isCap c
   | _ => false)

/-- The `SemesterType` pattern `^(Fall|Spring|Summer)$`. -/
def matchesSemester (s : String) : Bool :=
  s == "Fall" || s == "Spring" || s == "Summer"

/-- The `DepartmentCodeType` pattern `^[A-Z]{3,5}$`. -/
def matchesDepartmentCode (s : String) : Bool :=
  let cs := s.toList
  decide (3 ≤ cs.length) && decide (cs.length ≤ 5) && cs.all isCap

/-- Field-constraint validation of a `CourseCreate` payload, as pydantic
performs it before the handler runs: patterns on course_code / semester /
department_code, credits in [0.0, 10.0] (tenths ≤ 100), year in
[2020, 2040], title length 1–200, description ≤ 2000, max_enrollment in
[1, 1000], each prerequisite a course code, location ≤ 100,
meeting_times ≤ 200. -/
def validCourseCreate (c : CourseCreate) : Bool :=
  matchesCourseCode c.course_code &&
  decide (1 ≤ c.title.length) && decide (c.title.length ≤ 200) &&
  (match c.description with
   | none => true
   | some d => decide (d.length ≤ 2000)) &&
  decide (c.credits ≤ 100) &&
  matchesSemester c.semester &&
  decide (2020 ≤ c.year) && decide (c.year ≤ 2040) &&
  matchesDepartmentCode c.department_code &&
  (match c.max_enrollment with
   | none => true
   | some m => decide (1 ≤ m) && decide (m ≤ 1000)) &&
  c.prerequisites.all matchesCourseCode &&
  (match c.location with
   | none => true
   | some l => decide (l.length ≤ 100)) &&
  (match c.meeting_times with
   | none => true
   | some m => decide (m.length ≤ 200))

/-- Field-constraint validation of a `CourseUpdate` payload: each supplied
field must satisfy the same constraint as in `CourseCreate`. -/
def validCourseUpdate (u : CourseUpdate) : Bool :=
  (match u.course_code with
   | none => true
   | some s => matchesCourseCode s) &&
  (match u.title with
   | none => true
   | some t => decide (1 ≤ t.length) && decide (t.length ≤ 200)) &&
  (match u.description with
   | none => true
   | some none => true
   | some (some d) => decide (d.length ≤ 2000)) &&
  (match u.credits with
   | none => true
   | some cr => decide (cr ≤ 100)) &&
  (match u.semester with
   | none => true
   | some s => matchesSemester s) &&
  (match u.year with
   | none => true
   | some y => decide (2020 ≤ y) && decide (y ≤ 2040)) &&
  (match u.department_code with
   | none => true
   | some d => matchesDepartmentCode d) &&
  (match u.max_enrollment with
   | none => true
   | some none => true
   | some (some m) => decide (1 ≤ m) && decide (m ≤ 1000)) &&
  (match u.prerequisites with
   | none => true
   | some ps => ps.all matchesCourseCode) &&
  (match u.location with
   | none => true
   | some none => true
   | some (some l) => decide (l.length ≤ 100)) &&
  (match u.meeting_times with
   | none => true
   | some none => true
   | some (some m) => decide (m.length ≤ 200))

/-- The `CourseRead` record built by `CourseRead(**course.model_dump())`:
fresh id, both timestamps set to now, current_enrollment defaulted to 0. -/
def mkCourseRead (freshId now : Nat) (c : CourseCreate) : CourseRead :=
  { id := freshId, course_code := c.course_code, title := c.title,
    description := c.description, credits := c.credits,
    semester := c.semester, year := c.year,
    department_code := c.department_code,
    instructor_id := c.instructor_id, max_enrollment := c.max_enrollment,
    prerequisites := c.prerequisites, location := c.location,
    meeting_times := c.meeting_times, created_at := now,
    updated_at := now, current_enrollment := 0 }

/-- `POST /courses` (main.py `create_course`): reject when any stored
course has the same (course_code, semester, year), else insert. -/
def create_course (st : CourseStore) (freshId now : Nat) (c : CourseCreate) :
    (Except Err CourseRead) × CourseStore :=
  if (dictValues st).any (fun e =>
      e.course_code == c.course_code && e.semester == c.semester &&
      e.year == c.year) then
    (.error .conflict, st)
  else
    let r := mkCourseRead freshId now c
    (.ok r, dictInsert st freshId r)

/-- `GET /courses/{id}` (main.py `get_course`). -/
def get_course (st : CourseStore) (course_id : Nat) :
    (Except Err CourseRead) × CourseStore :=
  match dictGet st course_id with
  | none => (.error .notFound, st)
  | some r => (.ok r, st)

/-- Python `x or y` for an optional string: `None` and `""` are falsy. -/
def pyOrStr (x : Option String) (y : String) : String :=
  match x with
  | none => y
  | some s => if s == "" then y else s

/-- Python `x or y` for an optional int: `None` and `0` are falsy. -/
def pyOrNat (x : Option Nat) (y : Nat) : Nat :=
  match x with
  | none => y
  | some n => if n == 0 then y else n

/-- Merge of a `CourseUpdate` onto a stored record: the dict keys of
`update.model_dump(exclude_unset=True)` overwrite; id, created_at,
updated_at and current_enrollment are never in the dump, so they are
carried over unchanged. -/
def applyCourseUpdate (c : CourseRead) (u : CourseUpdate) : CourseRead :=
  { c with
    course_code := u.course_code.getD c.course_code,
    title := u.title.getD c.title,
    description := u.description.getD c.description,
    credits := u.credits.getD c.credits,
    semester := u.semester.getD c.semester,
    year := u.year.getD c.year,
    department_code := u.department_code.getD c.department_code,
    instructor_id := u.instructor_id.getD c.instructor_id,
    max_enrollment := u.max_enrollment.getD c.max_enrollment,
    prerequisites := u.prerequisites.getD c.prerequisites,
    location := u.location.getD c.location,
    meeting_times := u.meeting_times.getD c.meeting_times }

/-- `PATCH /courses/{id}` (main.py `update_course`): when the payload
touches course_code, semester or year, compute the candidate key with
Python `or` (falling back to the stored value) and reject if any other
stored course (by its id field) already has that key; then merge. -/
def update_course (st : CourseStore) (course_id : Nat) (u : CourseUpdate) :
    (Except Err CourseRead) × CourseStore :=
  match dictGet st course_id with
  | none => (.error .notFound, st)
  | some current_course =>
    let touchesKey :=
      u.course_code.isSome || u.semester.isSome || u.year.isSome
    let new_code := pyOrStr u.course_code current_course.course_code
    let new_semester := pyOrStr u.semester current_course.semester
    let new_year := pyOrNat u.year current_course.year
    if touchesKey &&
        (dictValues st).any (fun c =>
          c.id != course_id && c.course_code == new_code &&
          c.semester == new_semester && c.year == new_year) then
      (.error .conflict, st)
    else
      let merged := applyCourseUpdate current_course u
      (.ok merged, dictInsert st course_id merged)

/-- `GET /courses` (main.py `list_courses`): title is a case-insensitive
substring match, min/max credits are inclusive bounds, the rest exact. -/
def list_courses (st : CourseStore)
    (course_code title department_code semester : Option String)
    (year : Option Nat) (instructor_id : Option Nat)
    (credits min_credits max_credits : Option Nat) : List CourseRead :=
  let results := dictValues st
  let results := optFilter results course_code
    (fun c q => c.course_code == q)
  let results := optFilter results title
    (fun c q => substrOf (pyLower q) (pyLower c.title))
  let results := optFilter results department_code
    (fun c q => c.department_code == q)
  let results := optFilter results semester (fun c q => c.semester == q)
  let results := optFilter results year (fun c q => c.year == q)
  let results := optFilter results instructor_id
    (fun c q => c.instructor_id == some q)
  let results := optFilter results credits (fun c q => c.credits == q)
  let results := optFilter results min_credits
    (fun c q => decide (q ≤ c.credits))
  let results := optFilter results max_credits
    (fun c q => decide (c.credits ≤ q))
  results

-- ---------------------------------------------------------------------------
-- API-level wrappers and reachability
-- ---------------------------------------------------------------------------

/-- `POST /courses` as seen from outside: FastAPI/pydantic validates the
payload before the handler runs, so an invalid payload is rejected with a
validation error and the handler (and store) is never touched. -/
def create_course_api (st : CourseStore) (freshId now : Nat)
    (c : CourseCreate) : (Except Err CourseRead) × CourseStore :=
  if validCourseCreate c then create_course st freshId now c
  else (.error .validation, st)

/-- `PATCH /courses/{id}` as seen from outside: pydantic validates the
partial payload before the handler runs. -/
def update_course_api (st : CourseStore) (course_id : Nat)
    (u : CourseUpdate) : (Except Err CourseRead) × CourseStore :=
  if validCourseUpdate u then update_course st course_id u
  else (.error .validation, st)

/-- Course stores reachable from the empty store by any sequence of
(validated) create and update calls. Failing calls return the store
unchanged, so only successful calls are state transitions. -/
inductive CourseReach : CourseStore → Prop where
  | empty : CourseReach []
  | create {st : CourseStore} {freshId now : Nat} {c : CourseCreate}
      {r : CourseRead} {st' : CourseStore} :
      CourseReach st → create_course_api st freshId now c = (.ok r, st') →
      CourseReach st'
  | update {st : CourseStore} {course_id : Nat} {u : CourseUpdate}
      {r : CourseRead} {st' : CourseStore} :
      CourseReach st → update_course_api st course_id u = (.ok r, st') →
      CourseReach st'

-- ---------------------------------------------------------------------------
-- Store lemmas
-- ---------------------------------------------------------------------------

/-- A successful dict lookup returns an entry of the list, keyed as asked. -/
theorem dictGet_mem {α : Type} {st : List (Nat × α)} {k : Nat} {v : α}
    (h : dictGet st k = some v) : (k, v) ∈ st := by
  unfold dictGet at h
  cases hf : st.find? (fun p => p.1 == k) with
  | none => rw [hf] at h; simp at h
  | some p =>
    rw [hf] at h
    simp only [Option.map_some'] at h
    have hp := List.find?_some hf
    have hm : p ∈ st := List.mem_of_find?_eq_some hf
    have hk : p.1 = k := by simpa using hp
    have hv : p.2 = v := by simpa using h
    have : p = (k, v) := by
      cases p
      simp_all
    rwa [this] at hm

/-- Membership in a dict after assignment: each entry either was already
there or is the assigned pair. -/
theorem mem_dictInsert {α : Type} {st : List (Nat × α)} {k : Nat} {v : α}
    {p : Nat × α} (h : p ∈ dictInsert st k v) : p ∈ st ∨ p = (k, v) := by
  unfold dictInsert at h
  by_cases hm : dictMem st k = true
  · rw [if_pos hm] at h
    rcases List.mem_map.1 h with ⟨q, hq, hfq⟩
    by_cases hk : q.1 = k
    · right
      rw [← hfq]
      simp [hk]
    · left
      rw [← hfq]
      simpa [hk] using hq
  · rw [if_neg hm] at h
    rcases List.mem_append.1 h with h' | h'
    · exact Or.inl h'
    · right
      simpa using h'

/-- The composite key of a stored course. -/
def keyOf (c : CourseRead) : String × String × Nat :=
  (c.course_code, c.semester, c.year)

/-- Store invariant maintained by the Course endpoints: pairwise-distinct
dict keys, pairwise-distinct composite keys, and every record's id field
equal to its dict key. -/
def CourseInv (st : CourseStore) : Prop :=
  st.Pairwise (fun p q => p.1 ≠ q.1 ∧ keyOf p.2 ≠ keyOf q.2) ∧
  ∀ p ∈ st, p.2.id = p.1

/-- Assignment preserves the store invariant when the new record carries
its dict key as id and has a composite key distinct from every other
entry's. -/
theorem courseInv_dictInsert {st : CourseStore} {k : Nat} {v : CourseRead}
    (hinv : CourseInv st) (hid : v.id = k)
    (hkey : ∀ p ∈ st, p.1 ≠ k → keyOf p.2 ≠ keyOf v) :
    CourseInv (dictInsert st k v) := by
  obtain ⟨hpair, hids⟩ := hinv
  unfold dictInsert
  by_cases hm : dictMem st k = true
  · rw [if_pos hm]
    constructor
    · rw [List.pairwise_map]
      refine hpair.imp_of_mem ?_
      intro p q hp hq hpq
      by_cases hpk : p.1 = k <;> by_cases hqk : q.1 = k
      · exact absurd (hpk.trans hqk.symm) hpq.1
      · refine ⟨by simpa [hpk, hqk] using hpq.1, ?_⟩
        simp only [hpk, hqk]
        simp only [beq_self_eq_true, if_pos]
        rw [if_neg (by simp [hqk])]
        exact fun hcc => (hkey q hq hqk) hcc.symm
      · refine ⟨by simp [hpk, hqk], ?_⟩
        rw [if_neg (by simp [hpk])]
        simp only [hqk, beq_self_eq_true, if_pos]
        exact hkey p hp hpk
      · rw [if_neg (by simp [hpk]), if_neg (by simp [hqk])]
        exact hpq
    · intro p hp
      rcases List.mem_map.1 hp with ⟨q, hq, hfq⟩
      by_cases hqk : q.1 = k
      · rw [← hfq]
        simp [hqk, hid]
      · rw [← hfq]
        simp only [if_neg (by simp [hqk] : ¬((q.1 == k) = true))]
        exact hids q hq
  · rw [if_neg hm]
    have hknot : ∀ p ∈ st, p.1 ≠ k := by
      intro p hp hpk
      exact hm (List.any_eq_true.2 ⟨p, hp, by simp [hpk]⟩)
    constructor
    · rw [List.pairwise_append]
      refine ⟨hpair, List.pairwise_singleton _ _, ?_⟩
      intro p hp q hq
      have hqkv : q = (k, v) := by simpa using hq
      subst hqkv
      exact ⟨hknot p hp, hkey p hp (hknot p hp)⟩
    · intro p hp
      rcases List.mem_append.1 hp with h' | h'
      · exact hids p h'
      · have : p = (k, v) := by simpa using h'
        subst this
        exact hid

-- ---------------------------------------------------------------------------
-- Validity consequences and invariant preservation
-- ---------------------------------------------------------------------------

/-- A string matching the course-code pattern is nonempty. -/
theorem matchesCourseCode_ne {s : String} (h : matchesCourseCode s = true) :
    s ≠ "" := by
  intro hs
  subst hs
  exact absurd h (by decide)

/-- A string matching the semester pattern is nonempty. -/
theorem matchesSemester_ne {s : String} (h : matchesSemester s = true) :
    s ≠ "" := by
  intro hs
  subst hs
  exact absurd h (by decide)

/-- Python `or` agrees with set-ness fallback on a nonempty string. -/
theorem pyOrStr_getD {x : Option String} {y : String}
    (h : ∀ s, x = some s → s ≠ "") : pyOrStr x y = x.getD y := by
  cases x with
  | none => rfl
  | some s =>
    have := h s rfl
    simp [pyOrStr, this]

/-- Python `or` agrees with set-ness fallback on a nonzero number. -/
theorem pyOrNat_getD {x : Option Nat} {y : Nat}
    (h : ∀ n, x = some n → n ≠ 0) : pyOrNat x y = x.getD y := by
  cases x with
  | none => rfl
  | some n =>
    have := h n rfl
    simp [pyOrNat, this]

/-- Validity facts about the three composite-key fields of a validated
update payload: a supplied course_code matches the pattern, a supplied
semester matches the pattern, and a supplied year is at least 2020. -/
theorem validCourseUpdate_key {u : CourseUpdate}
    (h : validCourseUpdate u = true) :
    (∀ s, u.course_code = some s → matchesCourseCode s = true) ∧
    (∀ s, u.semester = some s → matchesSemester s = true) ∧
    (∀ n, u.year = some n → 2020 ≤ n) := by
  unfold validCourseUpdate at h
  simp only [Bool.and_eq_true] at h
  obtain ⟨⟨⟨⟨⟨⟨⟨⟨⟨⟨hA, _⟩, _⟩, _⟩, hE⟩, hF⟩, _⟩, _⟩, _⟩, _⟩, _⟩ := h
  refine ⟨?_, ?_, ?_⟩
  · intro s hs
    rw [hs] at hA
    exact hA
  · intro s hs
    rw [hs] at hE
    exact hE
  · intro n hn
    rw [hn] at hF
    simp only [Bool.and_eq_true, decide_eq_true_eq] at hF
    exact hF.1

/-- The effective composite key computed with Python `or` in
`update_course` equals the composite key of the merged record, for any
validated payload. -/
theorem update_key_agrees {u : CourseUpdate} {cur : CourseRead}
    (h : validCourseUpdate u = true) :
    pyOrStr u.course_code cur.course_code =
      (applyCourseUpdate cur u).course_code ∧
    pyOrStr u.semester cur.semester = (applyCourseUpdate cur u).semester ∧
    pyOrNat u.year cur.year = (applyCourseUpdate cur u).year := by
  obtain ⟨hc, hs, hy⟩ := validCourseUpdate_key h
  refine ⟨?_, ?_, ?_⟩
  · rw [pyOrStr_getD (fun s hs' => matchesCourseCode_ne (hc s hs'))]
    rfl
  · rw [pyOrStr_getD (fun s hs' => matchesSemester_ne (hs s hs'))]
    rfl
  · rw [pyOrNat_getD (fun n hn => by have := hy n hn; omega)]
    rfl

/-- `create_course` preserves the store invariant. -/
theorem create_course_inv {st : CourseStore} {fid now : Nat}
    {c : CourseCreate} {r : CourseRead} {st' : CourseStore}
    (hinv : CourseInv st)
    (h : create_course st fid now c = (.ok r, st')) : CourseInv st' := by
  unfold create_course at h
  split at h
  · simp at h
  · rename_i hany
    simp only [Prod.mk.injEq, Except.ok.injEq] at h
    obtain ⟨hr, hst⟩ := h
    subst hst
    refine courseInv_dictInsert hinv rfl ?_
    intro p hp _ heq
    apply hany
    refine List.any_eq_true.2 ⟨p.2, List.mem_map.2 ⟨p, hp, rfl⟩, ?_⟩
    simp only [keyOf, mkCourseRead, Prod.mk.injEq] at heq
    simp [heq.1, heq.2.1, heq.2.2]

/-- `update_course` preserves the store invariant for validated payloads. -/
theorem update_course_inv {st : CourseStore} {cid : Nat} {u : CourseUpdate}
    {r : CourseRead} {st' : CourseStore}
    (hinv : CourseInv st) (hvalid : validCourseUpdate u = true)
    (h : update_course st cid u = (.ok r, st')) : CourseInv st' := by
  unfold update_course at h
  split at h
  · simp at h
  · rename_i cur hget
    dsimp only at h
    split at h
    · simp at h
    · rename_i hguard
      simp only [Prod.mk.injEq, Except.ok.injEq] at h
      obtain ⟨hr, hst⟩ := h
      subst hst
      have hmem : (cid, cur) ∈ st := dictGet_mem hget
      have hcurid : cur.id = cid := hinv.2 (cid, cur) hmem
      refine courseInv_dictInsert hinv (by simp [applyCourseUpdate, hcurid]) ?_
      intro p hp hpk heq
      rw [Bool.and_eq_true] at hguard
      push_neg at hguard
      by_cases htouch : (u.course_code.isSome || u.semester.isSome ||
          u.year.isSome) = true
      · have hany := hguard htouch
        apply hany
        obtain ⟨h1, h2, h3⟩ := @update_key_agrees u cur hvalid
        refine List.any_eq_true.2 ⟨p.2, List.mem_map.2 ⟨p, hp, rfl⟩, ?_⟩
        have hpid : p.2.id = p.1 := hinv.2 p hp
        simp only [keyOf, Prod.mk.injEq] at heq
        simp [h1, h2, h3, heq.1, heq.2.1, heq.2.2, hpid, hpk]
      · have hnone : u.course_code = none ∧ u.semester = none ∧
            u.year = none := by
          simp only [Bool.or_eq_true, Option.isSome_iff_exists] at htouch
          push_neg at htouch
          refine ⟨?_, ?_, ?_⟩
          · cases hcc : u.course_code with
            | none => rfl
            | some s => exact absurd hcc (htouch.1.1 s)
          · cases hcc : u.semester with
            | none => rfl
            | some s => exact absurd hcc (htouch.1.2 s)
          · cases hcc : u.year with
            | none => rfl
            | some n => exact absurd hcc (htouch.2 n)
        have hkeycur : keyOf (applyCourseUpdate cur u) = keyOf cur := by
          simp [keyOf, applyCourseUpdate, hnone.1, hnone.2.1, hnone.2.2]
        rw [hkeycur] at heq
        have hsym : Symmetric (fun p q : Nat × CourseRead =>
            p.1 ≠ q.1 ∧ keyOf p.2 ≠ keyOf q.2) :=
          fun _ _ hab => ⟨hab.1.symm, hab.2.symm⟩
        have hpq : p ≠ (cid, cur) := by
          intro hcontra
          exact hpk (by rw [hcontra])
        exact (hinv.1.forall hsym hp hmem hpq).2 heq

/-- Every reachable Course store satisfies the store invariant. -/
theorem courseReach_inv {st : CourseStore} (h : CourseReach st) :
    CourseInv st := by
  induction h with
  | empty => exact ⟨List.Pairwise.nil, by simp⟩
  | create _ hcall ih =>
    rename_i st fid now c r st' _
    unfold create_course_api at hcall
    split at hcall
    · exact create_course_inv ih hcall
    · simp at hcall
  | update _ hcall ih =>
    rename_i st cid u r st' _
    unfold update_course_api at hcall
    split at hcall
    · rename_i hv
      exact update_course_inv ih hv hcall
    · simp at hcall

/-- Every record in a reachable Course store has current_enrollment 0:
`CourseCreate` has no current_enrollment field (so `CourseRead` defaults
it to 0) and the merge dict of an update never contains the key. -/
theorem courseReach_enrollment {st : CourseStore} (h : CourseReach st) :
    ∀ p ∈ st, p.2.current_enrollment = 0 := by
  induction h with
  | empty => simp
  | create _ hcall ih =>
    rename_i st fid now c r st' _
    unfold create_course_api create_course at hcall
    split at hcall
    · split at hcall
      · simp at hcall
      · simp only [Prod.mk.injEq, Except.ok.injEq] at hcall
        obtain ⟨_, hst⟩ := hcall
        subst hst
        intro p hp
        rcases mem_dictInsert hp with hp' | hp'
        · exact ih p hp'
        · subst hp'
          rfl
    · simp at hcall
  | update _ hcall ih =>
    rename_i st cid u r st' _
    unfold update_course_api update_course at hcall
    split at hcall
    · split at hcall
      · simp at hcall
      · rename_i cur hget
        dsimp only at hcall
        split at hcall
        · simp at hcall
        · simp only [Prod.mk.injEq, Except.ok.injEq] at hcall
          obtain ⟨_, hst⟩ := hcall
          subst hst
          intro p hp
          rcases mem_dictInsert hp with hp' | hp'
          · exact ih p hp'
          · subst hp'
            exact ih (cid, cur) (dictGet_mem hget)
    · simp at hcall

/-- Reading back the key just assigned returns the assigned value. -/
theorem dictGet_dictInsert {α : Type} (st : List (Nat × α)) (k : Nat)
    (v : α) : dictGet (dictInsert st k v) k = some v := by
  unfold dictInsert
  by_cases hm : dictMem st k = true
  · rw [if_pos hm]
    unfold dictGet
    rw [List.find?_map]
    have hpf : (fun p : Nat × α => p.1 == k) ∘
        (fun p : Nat × α => if p.1 == k then (k, v) else p) =
        fun p : Nat × α => p.1 == k := by
      funext p
      by_cases hpk : p.1 = k <;> simp [hpk]
    rw [hpf]
    have hex : ∃ p, p ∈ st ∧ (p.1 == k) = true := by
      unfold dictMem at hm
      simpa using List.any_eq_true.1 hm
    cases hf : st.find? (fun p => p.1 == k) with
    | none =>
      rw [List.find?_eq_none] at hf
      obtain ⟨p, hp, hpk⟩ := hex
      exact absurd hpk (hf p hp)
    | some q =>
      have hq := List.find?_some hf
      have hqk : q.1 = k := by simpa using hq
      simp [hqk]
  · rw [if_neg hm]
    unfold dictGet
    rw [List.find?_append]
    have hnone : st.find? (fun p => p.1 == k) = none := by
      rw [List.find?_eq_none]
      intro p hp hpk
      unfold dictMem at hm
      exact hm (List.any_eq_true.2 ⟨p, hp, hpk⟩)
    rw [hnone]
    simp

-- ---------------------------------------------------------------------------
-- Concrete fixtures used by the witnesses
-- ---------------------------------------------------------------------------

/-- A concrete valid Course create payload ("COMS4111", Fall 2025). -/
def sampleCourse : CourseCreate :=
  { course_code := "COMS4111", title := "Introduction to Databases",
    description := none, credits := 30, semester := "Fall", year := 2025,
    department_code := "COMS", instructor_id := none,
    max_enrollment := none, prerequisites := [], location := none,
    meeting_times := none }

/-- A second valid Course create payload ("COMS4115", Fall 2025). -/
def sampleCourse2 : CourseCreate :=
  { sampleCourse with
    course_code := "COMS4115"
    title := "Programming Languages and Translators" }

/-- A reachable one-course store. -/
theorem sampleReach :
    CourseReach [(1, mkCourseRead 1 10 sampleCourse)] :=
  CourseReach.create CourseReach.empty
    (show create_course_api [] 1 10 sampleCourse =
      (.ok (mkCourseRead 1 10 sampleCourse),
       [(1, mkCourseRead 1 10 sampleCourse)]) by decide)

/-- A reachable two-course store with distinct composite keys. -/
theorem sampleReach2 :
    CourseReach [(1, mkCourseRead 1 10 sampleCourse),
                 (2, mkCourseRead 2 20 sampleCourse2)] :=
  CourseReach.create sampleReach
    (show create_course_api [(1, mkCourseRead 1 10 sampleCourse)] 2 20
        sampleCourse2 =
      (.ok (mkCourseRead 2 20 sampleCourse2),
       [(1, mkCourseRead 1 10 sampleCourse),
        (2, mkCourseRead 2 20 sampleCourse2)]) by decide)

-- ---------------------------------------------------------------------------
-- Claim theorems
-- ---------------------------------------------------------------------------

/-- C1: in every state of the Course store reachable from the empty store
via any sequence of create_course and update_course operations, no two
distinct stored Course records have the same (course_code, semester, year)
composite key. -/
theorem c1_course_composite_key_unique {st : CourseStore}
    (h : CourseReach st) :
    (dictValues st).Pairwise (fun a b =>
      ¬(a.course_code = b.course_code ∧ a.semester = b.semester ∧
        a.year = b.year)) := by
  have hinv := (courseReach_inv h).1
  unfold dictValues
  rw [List.pairwise_map]
  refine hinv.imp ?_
  intro p q hpq hcon
  exact hpq.2 (by simp [keyOf, hcon.1, hcon.2.1, hcon.2.2])

/-- Witness for C1 at a concrete reachable two-course store. -/
theorem c1_course_composite_key_unique_witness :
    (dictValues [(1, mkCourseRead 1 10 sampleCourse),
                 (2, mkCourseRead 2 20 sampleCourse2)]).Pairwise
      (fun a b =>
        ¬(a.course_code = b.course_code ∧ a.semester = b.semester ∧
          a.year = b.year)) :=
  c1_course_composite_key_unique sampleReach2

/-- C10: in every reachable state of the Course store, every stored Course
record has current_enrollment equal to 0. -/
theorem c10_current_enrollment_zero {st : CourseStore}
    (h : CourseReach st) {r : CourseRead} (hr : r ∈ dictValues st) :
    r.current_enrollment = 0 := by
  rcases List.mem_map.1 hr with ⟨p, hp, hpr⟩
  rw [← hpr]
  exact courseReach_enrollment h p hp

/-- Witness for C10 at a concrete reachable store. -/
theorem c10_current_enrollment_zero_witness :
    (mkCourseRead 1 10 sampleCourse).current_enrollment = 0 :=
  c10_current_enrollment_zero sampleReach (by decide)

/-- C3: a Course create payload whose (course_code, semester, year) triple
equals that of some stored Course fails with ConflictError and inserts
nothing; otherwise create_course succeeds and stores the new record. -/
theorem c3_create_course_conflict {st : CourseStore} {fid now : Nat}
    {c : CourseCreate} (hv : validCourseCreate c = true) :
    ((∃ e ∈ dictValues st, e.course_code = c.course_code ∧
        e.semester = c.semester ∧ e.year = c.year) →
      create_course_api st fid now c = (.error .conflict, st)) ∧
    (¬(∃ e ∈ dictValues st, e.course_code = c.course_code ∧
        e.semester = c.semester ∧ e.year = c.year) →
      create_course_api st fid now c =
        (.ok (mkCourseRead fid now c),
         dictInsert st fid (mkCourseRead fid now c))) := by
  have hiff : ((dictValues st).any (fun e =>
      e.course_code == c.course_code && e.semester == c.semester &&
      e.year == c.year) = true) ↔
      ∃ e ∈ dictValues st, e.course_code = c.course_code ∧
        e.semester = c.semester ∧ e.year = c.year := by
    simp [List.any_eq_true, Bool.and_eq_true, and_assoc]
  constructor
  · intro hex
    unfold create_course_api create_course
    rw [if_pos hv, if_pos (hiff.2 hex)]
  · intro hex
    unfold create_course_api create_course
    rw [if_pos hv, if_neg (fun hcon => hex (hiff.1 hcon))]

/-- Witness for C3: creating ("COMS4111", Fall, 2025) over a store already
holding it fails with ConflictError and leaves the store unchanged, and
creating it over the empty store succeeds. -/
theorem c3_create_course_conflict_witness :
    create_course_api [(1, mkCourseRead 1 10 sampleCourse)] 2 20
        sampleCourse =
      (.error .conflict, [(1, mkCourseRead 1 10 sampleCourse)]) ∧
    create_course_api [] 1 10 sampleCourse =
      (.ok (mkCourseRead 1 10 sampleCourse),
       [(1, mkCourseRead 1 10 sampleCourse)]) :=
  ⟨(c3_create_course_conflict (by decide)).1 (by decide),
   by simpa using (c3_create_course_conflict (by decide)).2 (by decide)⟩

/-- A payload that touches none of course_code / semester / year has all
three fields unset. -/
theorem touches_none {u : CourseUpdate}
    (h : ¬(u.course_code.isSome || u.semester.isSome ||
        u.year.isSome) = true) :
    u.course_code = none ∧ u.semester = none ∧ u.year = none := by
  simp only [Bool.or_eq_true, Option.isSome_iff_exists] at h
  push_neg at h
  refine ⟨?_, ?_, ?_⟩
  · cases hcc : u.course_code with
    | none => rfl
    | some s => exact absurd hcc (h.1.1 s)
  · cases hcc : u.semester with
    | none => rfl
    | some s => exact absurd hcc (h.1.2 s)
  · cases hcc : u.year with
    | none => rfl
    | some n => exact absurd hcc (h.2 n)

/-- C4: for every stored Course and validated update payload, the
effective key (course_code, semester, year) is computed with unset
payload fields inheriting from the stored record; if any other stored
Course (the updated record's own id excluded) has that exact key,
update_course fails with ConflictError, and otherwise the update
succeeds. The store is any reachable one. -/
theorem c4_update_course_conflict {st : CourseStore} {cid : Nat}
    {u : CourseUpdate} {cur : CourseRead}
    (hreach : CourseReach st)
    (hget : dictGet st cid = some cur)
    (hv : validCourseUpdate u = true) :
    ((∃ e ∈ dictValues st, e.id ≠ cid ∧
        e.course_code = u.course_code.getD cur.course_code ∧
        e.semester = u.semester.getD cur.semester ∧
        e.year = u.year.getD cur.year) →
      update_course st cid u = (.error .conflict, st)) ∧
    (¬(∃ e ∈ dictValues st, e.id ≠ cid ∧
        e.course_code = u.course_code.getD cur.course_code ∧
        e.semester = u.semester.getD cur.semester ∧
        e.year = u.year.getD cur.year) →
      update_course st cid u =
        (.ok (applyCourseUpdate cur u),
         dictInsert st cid (applyCourseUpdate cur u))) := by
  obtain ⟨hc, hs, hy⟩ := validCourseUpdate_key hv
  have hkc : pyOrStr u.course_code cur.course_code =
      u.course_code.getD cur.course_code :=
    pyOrStr_getD (fun s hs' => matchesCourseCode_ne (hc s hs'))
  have hks : pyOrStr u.semester cur.semester =
      u.semester.getD cur.semester :=
    pyOrStr_getD (fun s hs' => matchesSemester_ne (hs s hs'))
  have hky : pyOrNat u.year cur.year = u.year.getD cur.year :=
    pyOrNat_getD (fun n hn => by have := hy n hn; omega)
  have hiff : ((dictValues st).any (fun c =>
      c.id != cid && c.course_code == pyOrStr u.course_code cur.course_code
      && c.semester == pyOrStr u.semester cur.semester &&
      c.year == pyOrNat u.year cur.year) = true) ↔
      ∃ e ∈ dictValues st, e.id ≠ cid ∧
        e.course_code = u.course_code.getD cur.course_code ∧
        e.semester = u.semester.getD cur.semester ∧
        e.year = u.year.getD cur.year := by
    simp [List.any_eq_true, Bool.and_eq_true, bne_iff_ne, beq_iff_eq,
      hkc, hks, hky, and_assoc]
  constructor
  · intro hex
    by_cases htouch : (u.course_code.isSome || u.semester.isSome ||
        u.year.isSome) = true
    · unfold update_course
      rw [hget]
      dsimp only
      rw [if_pos (by rw [Bool.and_eq_true]; exact ⟨htouch, hiff.2 hex⟩)]
    · exfalso
      obtain ⟨h1, h2, h3⟩ := touches_none htouch
      rw [h1, h2, h3] at hex
      obtain ⟨e, he, hene, heC, heS, heY⟩ := hex
      rcases List.mem_map.1 he with ⟨p, hp, hpe⟩
      have hinv := courseReach_inv hreach
      have hpid : p.2.id = p.1 := hinv.2 p hp
      have hmem : (cid, cur) ∈ st := dictGet_mem hget
      have hpne : p ≠ (cid, cur) := by
        intro hcontra
        apply hene
        rw [← hpe, hpid, hcontra]
      have hsym : Symmetric (fun p q : Nat × CourseRead =>
          p.1 ≠ q.1 ∧ keyOf p.2 ≠ keyOf q.2) :=
        fun _ _ hab => ⟨hab.1.symm, hab.2.symm⟩
      refine (hinv.1.forall hsym hp hmem hpne).2 ?_
      rw [hpe]
      simp only [keyOf, Option.getD_none] at heC heS heY ⊢
      rw [heC, heS, heY]
  · intro hex
    unfold update_course
    rw [hget]
    dsimp only
    rw [if_neg (by
      intro hcon
      rw [Bool.and_eq_true] at hcon
      exact hex (hiff.1 hcon.2))]

/-- Update payload setting only course_code (to a colliding code). -/
def collideUpd : CourseUpdate := { course_code := some "COMS4111" }

/-- Update payload setting only the year (to a non-colliding year). -/
def yearUpd : CourseUpdate := { year := some 2026 }

/-- Witness for C4: in a two-course store, retargeting course 2's code to
course 1's key conflicts and changes nothing, while moving course 2 to a
free year succeeds. -/
theorem c4_update_course_conflict_witness :
    update_course [(1, mkCourseRead 1 10 sampleCourse),
                   (2, mkCourseRead 2 20 sampleCourse2)] 2 collideUpd =
      (.error .conflict,
       [(1, mkCourseRead 1 10 sampleCourse),
        (2, mkCourseRead 2 20 sampleCourse2)]) ∧
    update_course [(1, mkCourseRead 1 10 sampleCourse),
                   (2, mkCourseRead 2 20 sampleCourse2)] 2 yearUpd =
      (.ok (applyCourseUpdate (mkCourseRead 2 20 sampleCourse2) yearUpd),
       dictInsert [(1, mkCourseRead 1 10 sampleCourse),
                   (2, mkCourseRead 2 20 sampleCourse2)] 2
         (applyCourseUpdate (mkCourseRead 2 20 sampleCourse2) yearUpd)) :=
  ⟨(c4_update_course_conflict sampleReach2
      (show dictGet [(1, mkCourseRead 1 10 sampleCourse),
          (2, mkCourseRead 2 20 sampleCourse2)] 2 =
        some (mkCourseRead 2 20 sampleCourse2) by decide)
      (by decide)).1 (by decide),
   (c4_update_course_conflict sampleReach2
      (show dictGet [(1, mkCourseRead 1 10 sampleCourse),
          (2, mkCourseRead 2 20 sampleCourse2)] 2 =
        some (mkCourseRead 2 20 sampleCourse2) by decide)
      (by decide)).2 (by decide)⟩

/-- A concrete Address create payload carrying an explicit client id. -/
def sampleAddr : AddressCreate :=
  { id := some 42, street := "116th St & Broadway", city := "New York",
    state := "NY", postal_code := "10027", country := "USA" }

/-- C2 counterexample: the claim says every create's identifier is
server-generated and not taken from the client payload, but create_address
stores the record under the payload's id (42), not under the fresh
server-generated id (99). -/
theorem c2_server_generated_id_counterexample :
    (create_address [] 99 sampleAddr).1 =
      .ok { id := 42, street := "116th St & Broadway", city := "New York",
            state := "NY", postal_code := "10027", country := "USA" } ∧
    (42 : Nat) ≠ 99 := by
  decide

/-- C2 (amended): for Person, Organization and Course the created record's
identifier is the server-generated fresh id regardless of the payload; for
Address it is the id carried in the client payload, with the fresh id used
only when the payload omits the field; and no update operation changes the
identifier of the stored record. -/
theorem c2_id_generation_amended :
    (∀ (st : PersonStore) (fid : Nat) (p : PersonCreate) (r : PersonRead)
        (stOut : PersonStore),
        create_person st fid p = (.ok r, stOut) → r.id = fid) ∧
    (∀ (st : OrgStore) (fid now : Nat) (o : OrganizationCreate)
        (r : OrganizationRead) (stOut : OrgStore),
        create_organization st fid now o = (.ok r, stOut) → r.id = fid) ∧
    (∀ (st : CourseStore) (fid now : Nat) (c : CourseCreate)
        (r : CourseRead) (stOut : CourseStore),
        create_course st fid now c = (.ok r, stOut) → r.id = fid) ∧
    (∀ (st : AddrStore) (fid : Nat) (a : AddressCreate) (r : AddressRead)
        (stOut : AddrStore),
        create_address st fid a = (.ok r, stOut) → r.id = a.id.getD fid) ∧
    (∀ (st : AddrStore) (k : Nat) (u : AddressUpdate)
        (cur r : AddressRead) (stOut : AddrStore),
        dictGet st k = some cur → update_address st k u = (.ok r, stOut) →
        r.id = cur.id ∧ dictGet stOut k = some r) ∧
    (∀ (st : PersonStore) (k : Nat) (u : PersonUpdate)
        (cur r : PersonRead) (stOut : PersonStore),
        dictGet st k = some cur → update_person st k u = (.ok r, stOut) →
        r.id = cur.id ∧ dictGet stOut k = some r) ∧
    (∀ (st : OrgStore) (k : Nat) (u : OrganizationUpdate)
        (cur r : OrganizationRead) (stOut : OrgStore),
        dictGet st k = some cur →
        update_organization st k u = (.ok r, stOut) →
        r.id = cur.id ∧ dictGet stOut k = some r) ∧
    (∀ (st : CourseStore) (k : Nat) (u : CourseUpdate)
        (cur r : CourseRead) (stOut : CourseStore),
        dictGet st k = some cur → update_course st k u = (.ok r, stOut) →
        r.id = cur.id ∧ dictGet stOut k = some r) := by
  refine ⟨?_, ?_, ?_, ?_, ?_, ?_, ?_, ?_⟩
  · intro st fid p r stOut h
    unfold create_person at h
    simp only [Prod.mk.injEq, Except.ok.injEq] at h
    rw [← h.1]
  · intro st fid now o r stOut h
    unfold create_organization at h
    simp only [Prod.mk.injEq, Except.ok.injEq] at h
    rw [← h.1]
  · intro st fid now c r stOut h
    unfold create_course at h
    split at h
    · simp at h
    · simp only [Prod.mk.injEq, Except.ok.injEq] at h
      rw [← h.1]
      rfl
  · intro st fid a r stOut h
    unfold create_address at h
    dsimp only at h
    split at h
    · simp at h
    · simp only [Prod.mk.injEq, Except.ok.injEq] at h
      rw [← h.1]
  · intro st k u cur r stOut hget h
    unfold update_address at h
    split at h
    · rename_i hnone
      rw [hget] at hnone
      simp at hnone
    · rename_i cur' hsome
      rw [hget] at hsome
      injection hsome with hcur
      subst hcur
      simp only [Prod.mk.injEq, Except.ok.injEq] at h
      obtain ⟨h1, h2⟩ := h
      subst h1
      subst h2
      exact ⟨rfl, dictGet_dictInsert st k _⟩
  · intro st k u cur r stOut hget h
    unfold update_person at h
    split at h
    · rename_i hnone
      rw [hget] at hnone
      simp at hnone
    · rename_i cur' hsome
      rw [hget] at hsome
      injection hsome with hcur
      subst hcur
      simp only [Prod.mk.injEq, Except.ok.injEq] at h
      obtain ⟨h1, h2⟩ := h
      subst h1
      subst h2
      exact ⟨rfl, dictGet_dictInsert st k _⟩
  · intro st k u cur r stOut hget h
    unfold update_organization at h
    split at h
    · rename_i hnone
      rw [hget] at hnone
      simp at hnone
    · rename_i cur' hsome
      rw [hget] at hsome
      injection hsome with hcur
      subst hcur
      simp only [Prod.mk.injEq, Except.ok.injEq] at h
      obtain ⟨h1, h2⟩ := h
      subst h1
      subst h2
      exact ⟨rfl, dictGet_dictInsert st k _⟩
  · intro st k u cur r stOut hget h
    unfold update_course at h
    split at h
    · rename_i hnone
      rw [hget] at hnone
      simp at hnone
    · rename_i cur' hsome
      rw [hget] at hsome
      injection hsome with hcur
      subst hcur
      dsimp only at h
      split at h
      · simp at h
      · simp only [Prod.mk.injEq, Except.ok.injEq] at h
        obtain ⟨h1, h2⟩ := h
        subst h1
        subst h2
        exact ⟨rfl, dictGet_dictInsert st k _⟩

/-- A concrete Person create payload. -/
def samplePerson : PersonCreate :=
  { uni := "al1815", first_name := "Ada", last_name := "Lovelace",
    email := "al1815@columbia.edu", phone := "+1-212-555-0100",
    birth_date := "1815-12-10", addresses := [] }

/-- The PersonRead produced for `samplePerson` with fresh id 5. -/
def samplePersonRead : PersonRead :=
  { id := 5, uni := "al1815", first_name := "Ada", last_name := "Lovelace",
    email := "al1815@columbia.edu", phone := "+1-212-555-0100",
    birth_date := "1815-12-10", addresses := [] }

/-- Witness for the amended C2: a concrete Person create takes the fresh
server id, and a concrete Course update keeps the stored id. -/
theorem c2_id_generation_amended_witness :
    samplePersonRead.id = 5 ∧
    (applyCourseUpdate (mkCourseRead 2 20 sampleCourse2) yearUpd).id =
      (mkCourseRead 2 20 sampleCourse2).id :=
  ⟨c2_id_generation_amended.1 [] 5 samplePerson samplePersonRead
      [(5, samplePersonRead)] (by decide),
   (c2_id_generation_amended.2.2.2.2.2.2.2
      [(1, mkCourseRead 1 10 sampleCourse),
       (2, mkCourseRead 2 20 sampleCourse2)] 2 yearUpd
      (mkCourseRead 2 20 sampleCourse2)
      (applyCourseUpdate (mkCourseRead 2 20 sampleCourse2) yearUpd)
      (dictInsert [(1, mkCourseRead 1 10 sampleCourse),
        (2, mkCourseRead 2 20 sampleCourse2)] 2
        (applyCourseUpdate (mkCourseRead 2 20 sampleCourse2) yearUpd))
      (by decide) (by decide)).1⟩

/-- C5: after a successful partial update (update_person, update_course —
the Python dict merge with exclude_unset=True), the stored and returned
record has every supplied field equal to the payload value
(`u.f.getD cur.f` collapses to the payload value when the field is set),
every absent field equal to its pre-update stored value (the same
expression collapses to `cur.f` when unset, and server-side fields id /
created_at / updated_at / current_enrollment are always carried over),
and a supplied embedded address list replaces the stored one wholesale. -/
theorem c5_partial_update_frame :
    (∀ (st : PersonStore) (k : Nat) (u : PersonUpdate)
        (cur r : PersonRead) (stOut : PersonStore),
        dictGet st k = some cur → update_person st k u = (.ok r, stOut) →
        dictGet stOut k = some r ∧
        r.id = cur.id ∧
        r.uni = u.uni.getD cur.uni ∧
        r.first_name = u.first_name.getD cur.first_name ∧
        r.last_name = u.last_name.getD cur.last_name ∧
        r.email = u.email.getD cur.email ∧
        r.phone = u.phone.getD cur.phone ∧
        r.birth_date = u.birth_date.getD cur.birth_date ∧
        r.addresses = u.addresses.getD cur.addresses) ∧
    (∀ (st : CourseStore) (k : Nat) (u : CourseUpdate)
        (cur r : CourseRead) (stOut : CourseStore),
        dictGet st k = some cur → update_course st k u = (.ok r, stOut) →
        dictGet stOut k = some r ∧
        r.id = cur.id ∧
        r.created_at = cur.created_at ∧
        r.updated_at = cur.updated_at ∧
        r.current_enrollment = cur.current_enrollment ∧
        r.course_code = u.course_code.getD cur.course_code ∧
        r.title = u.title.getD cur.title ∧
        r.description = u.description.getD cur.description ∧
        r.credits = u.credits.getD cur.credits ∧
        r.semester = u.semester.getD cur.semester ∧
        r.year = u.year.getD cur.year ∧
        r.department_code = u.department_code.getD cur.department_code ∧
        r.instructor_id = u.instructor_id.getD cur.instructor_id ∧
        r.max_enrollment = u.max_enrollment.getD cur.max_enrollment ∧
        r.prerequisites = u.prerequisites.getD cur.prerequisites ∧
        r.location = u.location.getD cur.location ∧
        r.meeting_times = u.meeting_times.getD cur.meeting_times) := by
  constructor
  · intro st k u cur r stOut hget h
    unfold update_person at h
    split at h
    · rename_i hnone
      rw [hget] at hnone
      simp at hnone
    · rename_i cur' hsome
      rw [hget] at hsome
      injection hsome with hcur
      subst hcur
      simp only [Prod.mk.injEq, Except.ok.injEq] at h
      obtain ⟨h1, h2⟩ := h
      subst h1
      subst h2
      exact ⟨dictGet_dictInsert st k _, rfl, rfl, rfl, rfl, rfl, rfl, rfl,
        rfl⟩
  · intro st k u cur r stOut hget h
    unfold update_course at h
    split at h
    · rename_i hnone
      rw [hget] at hnone
      simp at hnone
    · rename_i cur' hsome
      rw [hget] at hsome
      injection hsome with hcur
      subst hcur
      dsimp only at h
      split at h
      · simp at h
      · simp only [Prod.mk.injEq, Except.ok.injEq] at h
        obtain ⟨h1, h2⟩ := h
        subst h1
        subst h2
        exact ⟨dictGet_dictInsert st k _, rfl, rfl, rfl, rfl, rfl, rfl,
          rfl, rfl, rfl, rfl, rfl, rfl, rfl, rfl, rfl, rfl⟩

/-- A Person update payload touching only first_name. -/
def pUpd : PersonUpdate := { first_name := some "Augusta" }

/-- Witness for C5: updating only first_name sets it to the payload value
and leaves uni at its stored value. -/
theorem c5_partial_update_frame_witness :
    (applyPersonUpdate samplePersonRead pUpd).first_name =
      pUpd.first_name.getD samplePersonRead.first_name ∧
    (applyPersonUpdate samplePersonRead pUpd).uni =
      pUpd.uni.getD samplePersonRead.uni :=
  ⟨(c5_partial_update_frame.1 [(5, samplePersonRead)] 5 pUpd
      samplePersonRead (applyPersonUpdate samplePersonRead pUpd)
      (dictInsert [(5, samplePersonRead)] 5
        (applyPersonUpdate samplePersonRead pUpd))
      (by decide) (by decide)).2.2.2.1,
   (c5_partial_update_frame.1 [(5, samplePersonRead)] 5 pUpd
      samplePersonRead (applyPersonUpdate samplePersonRead pUpd)
      (dictInsert [(5, samplePersonRead)] 5
        (applyPersonUpdate samplePersonRead pUpd))
      (by decide) (by decide)).2.2.1⟩

/-- C9: a successful update of an Organization or a Course leaves both
created_at and updated_at at their pre-update stored values — the update
merge never refreshes updated_at. The modelled Person Read shape (spec §3)
carries no timestamps, so the Person clause is vacuous. -/
theorem c9_update_preserves_timestamps :
    (∀ (st : OrgStore) (k : Nat) (u : OrganizationUpdate)
        (cur r : OrganizationRead) (stOut : OrgStore),
        dictGet st k = some cur →
        update_organization st k u = (.ok r, stOut) →
        r.created_at = cur.created_at ∧ r.updated_at = cur.updated_at) ∧
    (∀ (st : CourseStore) (k : Nat) (u : CourseUpdate)
        (cur r : CourseRead) (stOut : CourseStore),
        dictGet st k = some cur → update_course st k u = (.ok r, stOut) →
        r.created_at = cur.created_at ∧ r.updated_at = cur.updated_at) := by
  constructor
  · intro st k u cur r stOut hget h
    unfold update_organization at h
    split at h
    · rename_i hnone
      rw [hget] at hnone
      simp at hnone
    · rename_i cur' hsome
      rw [hget] at hsome
      injection hsome with hcur
      subst hcur
      simp only [Prod.mk.injEq, Except.ok.injEq] at h
      obtain ⟨h1, h2⟩ := h
      subst h1
      exact ⟨rfl, rfl⟩
  · intro st k u cur r stOut hget h
    unfold update_course at h
    split at h
    · rename_i hnone
      rw [hget] at hnone
      simp at hnone
    · rename_i cur' hsome
      rw [hget] at hsome
      injection hsome with hcur
      subst hcur
      dsimp only at h
      split at h
      · simp at h
      · simp only [Prod.mk.injEq, Except.ok.injEq] at h
        obtain ⟨h1, h2⟩ := h
        subst h1
        exact ⟨rfl, rfl⟩

/-- Witness for C9: a concrete Course year-update keeps both timestamps. -/
theorem c9_update_preserves_timestamps_witness :
    (applyCourseUpdate (mkCourseRead 2 20 sampleCourse2) yearUpd).created_at
      = (mkCourseRead 2 20 sampleCourse2).created_at ∧
    (applyCourseUpdate (mkCourseRead 2 20 sampleCourse2) yearUpd).updated_at
      = (mkCourseRead 2 20 sampleCourse2).updated_at :=
  c9_update_preserves_timestamps.2
    [(1, mkCourseRead 1 10 sampleCourse),
     (2, mkCourseRead 2 20 sampleCourse2)] 2 yearUpd
    (mkCourseRead 2 20 sampleCourse2)
    (applyCourseUpdate (mkCourseRead 2 20 sampleCourse2) yearUpd)
    (dictInsert [(1, mkCourseRead 1 10 sampleCourse),
      (2, mkCourseRead 2 20 sampleCourse2)] 2
      (applyCourseUpdate (mkCourseRead 2 20 sampleCourse2) yearUpd))
    (by decide) (by decide)

/-- C8: every failing create, get, or update operation — ValidationError
(modelled at the api wrappers, where pydantic rejects before the handler
runs), NotFoundError, or ConflictError — returns the backing store exactly
as it was: no error path inserts, replaces, or removes a record. -/
theorem c8_errors_leave_store_unchanged :
    (∀ (st : AddrStore) (fid : Nat) (a : AddressCreate),
      isErr (create_address st fid a).1 = true →
        (create_address st fid a).2 = st) ∧
    (∀ (st : AddrStore) (k : Nat),
      isErr (get_address st k).1 = true → (get_address st k).2 = st) ∧
    (∀ (st : AddrStore) (k : Nat) (u : AddressUpdate),
      isErr (update_address st k u).1 = true →
        (update_address st k u).2 = st) ∧
    (∀ (st : PersonStore) (fid : Nat) (p : PersonCreate),
      isErr (create_person st fid p).1 = true →
        (create_person st fid p).2 = st) ∧
    (∀ (st : PersonStore) (k : Nat),
      isErr (get_person st k).1 = true → (get_person st k).2 = st) ∧
    (∀ (st : PersonStore) (k : Nat) (u : PersonUpdate),
      isErr (update_person st k u).1 = true →
        (update_person st k u).2 = st) ∧
    (∀ (st : OrgStore) (fid now : Nat) (o : OrganizationCreate),
      isErr (create_organization st fid now o).1 = true →
        (create_organization st fid now o).2 = st) ∧
    (∀ (st : OrgStore) (k : Nat),
      isErr (get_organization st k).1 = true →
        (get_organization st k).2 = st) ∧
    (∀ (st : OrgStore) (k : Nat) (u : OrganizationUpdate),
      isErr (update_organization st k u).1 = true →
        (update_organization st k u).2 = st) ∧
    (∀ (st : CourseStore) (fid now : Nat) (c : CourseCreate),
      isErr (create_course_api st fid now c).1 = true →
        (create_course_api st fid now c).2 = st) ∧
    (∀ (st : CourseStore) (k : Nat),
      isErr (get_course st k).1 = true → (get_course st k).2 = st) ∧
    (∀ (st : CourseStore) (k : Nat) (u : CourseUpdate),
      isErr (update_course_api st k u).1 = true →
        (update_course_api st k u).2 = st) := by
  refine ⟨?_, ?_, ?_, ?_, ?_, ?_, ?_, ?_, ?_, ?_, ?_, ?_⟩
  · intro st fid a h
    rcases hop : create_address st fid a with ⟨res, stOut⟩
    rw [hop] at h
    unfold create_address at hop
    dsimp only at hop
    split at hop
    · injection hop with h1 h2
      subst h2
      rfl
    · injection hop with h1 h2
      subst h1
      simp [isErr] at h
  · intro st k h
    rcases hop : get_address st k with ⟨res, stOut⟩
    rw [hop] at h
    unfold get_address at hop
    split at hop <;> (injection hop with h1 h2; subst h2; rfl)
  · intro st k u h
    rcases hop : update_address st k u with ⟨res, stOut⟩
    rw [hop] at h
    unfold update_address at hop
    dsimp only at hop
    split at hop
    · injection hop with h1 h2
      subst h2
      rfl
    · injection hop with h1 h2
      subst h1
      simp [isErr] at h
  · intro st fid p h
    rcases hop : create_person st fid p with ⟨res, stOut⟩
    rw [hop] at h
    unfold create_person at hop
    dsimp only at hop
    injection hop with h1 h2
    subst h1
    simp [isErr] at h
  · intro st k h
    rcases hop : get_person st k with ⟨res, stOut⟩
    rw [hop] at h
    unfold get_person at hop
    split at hop <;> (injection hop with h1 h2; subst h2; rfl)
  · intro st k u h
    rcases hop : update_person st k u with ⟨res, stOut⟩
    rw [hop] at h
    unfold update_person at hop
    dsimp only at hop
    split at hop
    · injection hop with h1 h2
      subst h2
      rfl
    · injection hop with h1 h2
      subst h1
      simp [isErr] at h
  · intro st fid now o h
    rcases hop : create_organization st fid now o with ⟨res, stOut⟩
    rw [hop] at h
    unfold create_organization at hop
    dsimp only at hop
    injection hop with h1 h2
    subst h1
    simp [isErr] at h
  · intro st k h
    rcases hop : get_organization st k with ⟨res, stOut⟩
    rw [hop] at h
    unfold get_organization at hop
    split at hop <;> (injection hop with h1 h2; subst h2; rfl)
  · intro st k u h
    rcases hop : update_organization st k u with ⟨res, stOut⟩
    rw [hop] at h
    unfold update_organization at hop
    dsimp only at hop
    split at hop
    · injection hop with h1 h2
      subst h2
      rfl
    · injection hop with h1 h2
      subst h1
      simp [isErr] at h
  · intro st fid now c h
    rcases hop : create_course_api st fid now c with ⟨res, stOut⟩
    rw [hop] at h
    unfold create_course_api at hop
    split at hop
    · unfold create_course at hop
      dsimp only at hop
      split at hop
      · injection hop with h1 h2
        subst h2
        rfl
      · injection hop with h1 h2
        subst h1
        simp [isErr] at h
    · injection hop with h1 h2
      subst h2
      rfl
  · intro st k h
    rcases hop : get_course st k with ⟨res, stOut⟩
    rw [hop] at h
    unfold get_course at hop
    split at hop <;> (injection hop with h1 h2; subst h2; rfl)
  · intro st k u h
    rcases hop : update_course_api st k u with ⟨res, stOut⟩
    rw [hop] at h
    unfold update_course_api at hop
    split at hop
    · unfold update_course at hop
      split at hop
      · injection hop with h1 h2
        subst h2
        rfl
      · dsimp only at hop
        split at hop
        · injection hop with h1 h2
          subst h2
          rfl
        · injection hop with h1 h2
          subst h1
          simp [isErr] at h
    · injection hop with h1 h2
      subst h2
      rfl

/-- Witness for C8: a get of a never-created id fails with the store left
empty, exactly as it was. -/
theorem c8_errors_leave_store_unchanged_witness :
    (get_course [] 7).2 = [] :=
  c8_errors_leave_store_unchanged.2.2.2.2.2.2.2.2.2.2.1 [] 7 (by decide)

-- ---------------------------------------------------------------------------
-- Filter composition
-- ---------------------------------------------------------------------------

/-- Two successive filters collapse into one conjunction, keeping order. -/
theorem filter_then {α : Type} (p r : α → Bool) (l : List α) :
    (l.filter p).filter r = l.filter (fun a => p a && r a) := by
  induction l with
  | nil => rfl
  | cons a t ih =>
    by_cases hp : p a = true <;> by_cases hr : r a = true <;>
      simp [List.filter_cons, hp, hr, ih]

/-- An optional filter stage is the filter by its induced predicate. -/
theorem optFilter_eq {α β : Type} (l : List α) (q : Option β)
    (f : α → β → Bool) :
    optFilter l q f = l.filter (fun a => optMatch q (f a)) := by
  cases q with
  | none => simp [optFilter, optMatch]
  | some b => rfl

/-- An optional filter stage after a filter folds into the conjunction. -/
theorem optFilter_filter {α β : Type} (l : List α) (p : α → Bool)
    (q : Option β) (f : α → β → Bool) :
    optFilter (l.filter p) q f =
      l.filter (fun a => p a && optMatch q (f a)) := by
  cases q with
  | none => simp [optFilter, optMatch]
  | some b => exact filter_then p (fun a => f a b) l

/-- Spec-side predicate (spec §4.3): an Address satisfies every provided
filter parameter. -/
def addressMatches (street city state_q postal_code country :
    Option String) (a : AddressRead) : Bool :=
  optMatch street (fun q => a.street == q) &&
  optMatch city (fun q => a.city == q) &&
  optMatch state_q (fun q => a.state == q) &&
  optMatch postal_code (fun q => a.postal_code == q) &&
  optMatch country (fun q => a.country == q)

/-- Spec-side predicate (spec §4.3): a Course satisfies every provided
filter parameter (title by case-insensitive substring, credit bounds
inclusive, the rest exact). -/
def courseMatches (course_code title department_code semester :
    Option String) (year instructor_id : Option Nat)
    (credits min_credits max_credits : Option Nat) (c : CourseRead) :
    Bool :=
  optMatch course_code (fun q => c.course_code == q) &&
  optMatch title (fun q => substrOf (pyLower q) (pyLower c.title)) &&
  optMatch department_code (fun q => c.department_code == q) &&
  optMatch semester (fun q => c.semester == q) &&
  optMatch year (fun q => c.year == q) &&
  optMatch instructor_id (fun q => c.instructor_id == some q) &&
  optMatch credits (fun q => c.credits == q) &&
  optMatch min_credits (fun q => decide (q ≤ c.credits)) &&
  optMatch max_credits (fun q => decide (c.credits ≤ q))

/-- Spec-side predicate (spec §4.3): a Person satisfies every provided
filter parameter (field filters exact; city/country true when at least
one embedded address matches). -/
def personMatches (uni first_name last_name email phone birth_date city
    country : Option String) (p : PersonRead) : Bool :=
  optMatch uni (fun q => p.uni == q) &&
  optMatch first_name (fun q => p.first_name == q) &&
  optMatch last_name (fun q => p.last_name == q) &&
  optMatch email (fun q => p.email == q) &&
  optMatch phone (fun q => p.phone == q) &&
  optMatch birth_date (fun q => p.birth_date == q) &&
  optMatch city (fun q => p.addresses.any (fun a => a.city == q)) &&
  optMatch country (fun q => p.addresses.any (fun a => a.country == q))

/-- Spec-side predicate (spec §4.3): an Organization satisfies every
provided filter parameter (name by case-insensitive substring, the rest
exact; city/country true when at least one embedded address matches). -/
def organizationMatches (name org_type : Option String)
    (founded_year : Option Nat) (city country : Option String)
    (contact_person_id : Option Nat) (o : OrganizationRead) : Bool :=
  optMatch name (fun q => substrOf (pyLower q) (pyLower o.name)) &&
  optMatch org_type (fun q => o.org_type == q) &&
  optMatch founded_year (fun q => o.founded_year == some q) &&
  optMatch contact_person_id (fun q => o.contact_person_id == some q) &&
  optMatch city (fun q => o.addresses.any (fun a => a.city == q)) &&
  optMatch country (fun q => o.addresses.any (fun a => a.country == q))

/-- C6: for every resource type, the list operation with no filter
parameters returns the full collection in the insertion order of the
backing store, and with any filter parameters returns the ordered
subsequence (a Sublist of the collection) of exactly the records
satisfying every provided filter. -/
theorem c6_list_insertion_order_and_filters :
    (∀ st : AddrStore,
      list_addresses st none none none none none = dictValues st) ∧
    (∀ (st : AddrStore) (street city state_q postal_code country :
        Option String),
      list_addresses st street city state_q postal_code country =
        (dictValues st).filter
          (addressMatches street city state_q postal_code country)) ∧
    (∀ (st : AddrStore) (street city state_q postal_code country :
        Option String),
      (list_addresses st street city state_q postal_code
        country).Sublist (dictValues st)) ∧
    (∀ st : PersonStore,
      list_persons st none none none none none none none none =
        dictValues st) ∧
    (∀ (st : PersonStore) (uni first_name last_name email phone
        birth_date city country : Option String),
      list_persons st uni first_name last_name email phone birth_date
          city country =
        (dictValues st).filter
          (personMatches uni first_name last_name email phone birth_date
            city country)) ∧
    (∀ (st : PersonStore) (uni first_name last_name email phone
        birth_date city country : Option String),
      (list_persons st uni first_name last_name email phone birth_date
        city country).Sublist (dictValues st)) ∧
    (∀ st : OrgStore,
      list_organizations st none none none none none none =
        dictValues st) ∧
    (∀ (st : OrgStore) (name org_type : Option String)
        (founded_year : Option Nat) (city country : Option String)
        (contact_person_id : Option Nat),
      list_organizations st name org_type founded_year city country
          contact_person_id =
        (dictValues st).filter
          (organizationMatches name org_type founded_year city country
            contact_person_id)) ∧
    (∀ (st : OrgStore) (name org_type : Option String)
        (founded_year : Option Nat) (city country : Option String)
        (contact_person_id : Option Nat),
      (list_organizations st name org_type founded_year city country
        contact_person_id).Sublist (dictValues st)) ∧
    (∀ st : CourseStore,
      list_courses st none none none none none none none none none =
        dictValues st) ∧
    (∀ (st : CourseStore) (course_code title department_code semester :
        Option String) (year instructor_id credits min_credits
        max_credits : Option Nat),
      list_courses st course_code title department_code semester year
          instructor_id credits min_credits max_credits =
        (dictValues st).filter
          (courseMatches course_code title department_code semester year
            instructor_id credits min_credits max_credits)) ∧
    (∀ (st : CourseStore) (course_code title department_code semester :
        Option String) (year instructor_id credits min_credits
        max_credits : Option Nat),
      (list_courses st course_code title department_code semester year
        instructor_id credits min_credits max_credits).Sublist
        (dictValues st)) := by
  have haddr : ∀ (st : AddrStore) (street city state_q postal_code
      country : Option String),
      list_addresses st street city state_q postal_code country =
        (dictValues st).filter
          (addressMatches street city state_q postal_code country) := by
    intro st street city state_q postal_code country
    unfold list_addresses
    dsimp only
    rw [optFilter_eq (dictValues st) street, optFilter_filter,
      optFilter_filter, optFilter_filter, optFilter_filter]
    rfl
  have hperson : ∀ (st : PersonStore) (uni first_name last_name email
      phone birth_date city country : Option String),
      list_persons st uni first_name last_name email phone birth_date
          city country =
        (dictValues st).filter
          (personMatches uni first_name last_name email phone birth_date
            city country) := by
    intro st uni first_name last_name email phone birth_date city country
    unfold list_persons
    dsimp only
    rw [optFilter_eq (dictValues st) uni, optFilter_filter,
      optFilter_filter, optFilter_filter, optFilter_filter,
      optFilter_filter, optFilter_filter, optFilter_filter]
    rfl
  have horg : ∀ (st : OrgStore) (name org_type : Option String)
      (founded_year : Option Nat) (city country : Option String)
      (contact_person_id : Option Nat),
      list_organizations st name org_type founded_year city country
          contact_person_id =
        (dictValues st).filter
          (organizationMatches name org_type founded_year city country
            contact_person_id) := by
    intro st name org_type founded_year city country contact_person_id
    unfold list_organizations
    dsimp only
    rw [optFilter_eq (dictValues st) name, optFilter_filter,
      optFilter_filter, optFilter_filter, optFilter_filter,
      optFilter_filter]
    rfl
  have hcourse : ∀ (st : CourseStore) (course_code title department_code
      semester : Option String) (year instructor_id credits min_credits
      max_credits : Option Nat),
      list_courses st course_code title department_code semester year
          instructor_id credits min_credits max_credits =
        (dictValues st).filter
          (courseMatches course_code title department_code semester year
            instructor_id credits min_credits max_credits) := by
    intro st course_code title department_code semester year instructor_id
      credits min_credits max_credits
    unfold list_courses
    dsimp only
    rw [optFilter_eq (dictValues st) course_code, optFilter_filter,
      optFilter_filter, optFilter_filter, optFilter_filter,
      optFilter_filter, optFilter_filter, optFilter_filter,
      optFilter_filter]
    rfl
  refine ⟨?_, haddr, ?_, ?_, hperson, ?_, ?_, horg, ?_, ?_, hcourse, ?_⟩
  · intro st
    rfl
  · intro st street city state_q postal_code country
    rw [haddr]
    exact List.filter_sublist _
  · intro st
    rfl
  · intro st uni first_name last_name email phone birth_date city country
    rw [hperson]
    exact List.filter_sublist _
  · intro st
    rfl
  · intro st name org_type founded_year city country contact_person_id
    rw [horg]
    exact List.filter_sublist _
  · intro st
    rfl
  · intro st course_code title department_code semester year instructor_id
      credits min_credits max_credits
    rw [hcourse]
    exact List.filter_sublist _

/-- C7: list_persons with only the city filter set to `c` returns exactly
the stored Persons having at least one embedded Address whose city equals
`c` (case-sensitive string equality), in store order; analogously for the
country filter. -/
theorem c7_list_persons_city_country :
    (∀ (st : PersonStore) (c : String),
      list_persons st none none none none none none (some c) none =
        (dictValues st).filter
          (fun p => p.addresses.any (fun a => a.city == c))) ∧
    (∀ (st : PersonStore) (c : String) (p : PersonRead),
      p ∈ list_persons st none none none none none none (some c) none ↔
        p ∈ dictValues st ∧
          p.addresses.any (fun a => a.city == c) = true) ∧
    (∀ (st : PersonStore) (c : String),
      list_persons st none none none none none none none (some c) =
        (dictValues st).filter
          (fun p => p.addresses.any (fun a => a.country == c))) ∧
    (∀ (st : PersonStore) (c : String) (p : PersonRead),
      p ∈ list_persons st none none none none none none none (some c) ↔
        p ∈ dictValues st ∧
          p.addresses.any (fun a => a.country == c) = true) := by
  refine ⟨?_, ?_, ?_, ?_⟩
  · intro st c
    rfl
  · intro st c p
    show p ∈ (dictValues st).filter
        (fun p => p.addresses.any (fun a => a.city == c)) ↔ _
    simp [List.mem_filter]
  · intro st c
    rfl
  · intro st c p
    show p ∈ (dictValues st).filter
        (fun p => p.addresses.any (fun a => a.country == c)) ↔ _
    simp [List.mem_filter]
